import Mathlib

/-!
Shallow embedding of the gate-node core of the Entry_Security appliance
(`receiver.ino`): the employee presence registry (a singly linked record
store with add/find/remove), the Identification Task's per-event body
(`checkID`), the duration computation (`calculateTotalTime`), and the
Door State Machine (`Task_DoorController`) with its single-slot Actuation
Queue and the `Remote_Door` flag.

The linked chain `Employee* head` is embedded as `List Employee`
(the `next` pointers become the list structure).  In-place mutation of a
found node becomes replacement of the first matching element.  `malloc`
success/failure in `addEmployee` is an explicit `allocOk : Bool`
parameter.  The operator's case-insensitive `"y"` check
(`input.equalsIgnoreCase("y")`) is passed as the boolean `answerYes`.
Diagnostics (`Serial.print`, LCD writes) have no effect on the modelled
state and are omitted.
-/

namespace Receiver

/-- `struct Employee` from `receiver.ino` (the `next` pointer is encoded by
the enclosing `List`).  Field values are the null-terminated contents of the
fixed `char` buffers. -/
structure Employee where
  uid : String
  entryTime : String
  exitTime : String
  isEntering : Bool
  deriving Repr, DecidableEq

/-- `struct AccessData`: the wire payload, a UID and a timestamp. -/
structure AccessData where
  uid : String
  time : String
  deriving Repr, DecidableEq

/-- The linear scan in `checkID` (lines 150-154): walk the chain from `head`
until a node with `strcmp(temp->uid, recvData.uid) == 0` is found; `none`
models reaching `NULL`.  The same scan is performed by `removeEmployee`. -/
def findEmployee : List Employee → String → Option Employee
  | [], _ => none
  | e :: rest, uid => if e.uid = uid then some e else findEmployee rest uid

/-- `addEmployee` (lines 238-251): if `malloc` fails (`allocOk = false`)
print a diagnostic and return with the chain unchanged; otherwise create a
record with `entryTime = time`, `exitTime = ""`, `isEntering = true` and
link it as the new head. -/
def addEmployee (head : List Employee) (uid time : String) (allocOk : Bool) :
    List Employee :=
  if allocOk then { uid := uid, entryTime := time, exitTime := "", isEntering := true } :: head
  else head

/-- `removeEmployee` (lines 254-272): unlink and free the first node whose
uid matches `rfid`; no-op when the scan reaches `NULL` without a match. -/
def removeEmployee : List Employee → String → List Employee
  | [], _ => []
  | e :: rest, rfid => if e.uid = rfid then rest else e :: removeEmployee rest rfid

/-- In-place mutation of the first node matching `uid`
(`temp->isEntering = ...`, `strcpy(temp->entryTime, ...)`, ...): the chain
with the first matching node replaced by `f` of it. -/
def updateFirst (uid : String) (f : Employee → Employee) :
    List Employee → List Employee
  | [] => []
  | e :: rest => if e.uid = uid then f e :: rest else e :: updateFirst uid f rest

/-- `readNat`: the digit-consuming part of `sscanf`'s `%d` conversion —
consume leading decimal digits, accumulating their value, and return the
rest of the character stream. -/
def readNat : List Char → Nat → Nat × List Char
  | [], acc => (acc, [])
  | c :: cs, acc =>
      if c.isDigit then readNat cs (10 * acc + (c.toNat - 48)) else (acc, c :: cs)

/-- Consume the literal `:` of the `"%d:%d:%d"` format between conversions. -/
def skipColon : List Char → List Char
  | ':' :: cs => cs
  | cs => cs

/-- `sscanf(s, "%d:%d:%d", &h, &m, &s)` on a well-formed `"HH:MM:SS"`
string: the three integer fields. -/
def scanHMS (s : String) : Int × Int × Int :=
  let (h, r1) := readNat s.data 0
  let (m, r2) := readNat (skipColon r1) 0
  let (sec, _) := readNat (skipColon r2) 0
  ((h : Int), (m : Int), (sec : Int))

/-- `calculateTotalTime` (lines 274-279): decompose both timestamps with
`sscanf("%d:%d:%d")` and return
`(h2*3600 + m2*60 + s2) - (h1*3600 + m1*60 + s1)` in exact `int`
arithmetic. -/
def calculateTotalTime (entry exit : String) : Int :=
  let (h1, m1, s1) := scanHMS entry
  let (h2, m2, s2) := scanHMS exit
  (h2 * 3600 + m2 * 60 + s2) - (h1 * 3600 + m1 * 60 + s1)

/-- One `checkID` service-loop body for one received `AccessData`
(lines 149-232), acting on the registry chain and the `Remote_Door` flag.
`answerYes` is the operator console's case-insensitive `"y"` test for
whichever single prompt (enroll or remove) this event raises; `allocOk` is
whether `malloc` succeeds inside `addEmployee`.  Returns the new chain and
the new `Remote_Door` value. -/
def checkIDStep (head : List Employee) (Remote_Door : Bool) (recvData : AccessData)
    (answerYes : Bool) (allocOk : Bool) : List Employee × Bool :=
  match findEmployee head recvData.uid with
  | none =>
      -- unknown UID: "Set Employee?" prompt
      if answerYes then
        (addEmployee head recvData.uid recvData.time allocOk, true)
      else
        (head, Remote_Door)
  | some temp =>
      -- known UID: toggle isEntering on the found node
      let temp1 := { temp with isEntering := !temp.isEntering }
      if temp1.isEntering then
        -- entering: record entryTime and open the door
        (updateFirst recvData.uid (fun _ => { temp1 with entryTime := recvData.time }) head,
         true)
      else
        -- leaving: record exitTime, report total time, "Remove Employee?" prompt
        let temp2 := { temp1 with exitTime := recvData.time }
        let head1 := updateFirst recvData.uid (fun _ => temp2) head
        if answerYes then
          (removeEmployee head1 recvData.uid, Remote_Door)
        else
          (head1, Remote_Door)

/-- A whole execution of the Identification Task from boot
(`head = NULL`, `Remote_Door = false`): fold `checkIDStep` over a list of
(event, operator answer, malloc outcome) triples. -/
def runEvents (evs : List (AccessData × Bool × Bool)) : List Employee × Bool :=
  evs.foldl (fun st x => checkIDStep st.1 st.2 x.1 x.2.1 x.2.2) ([], false)

/-- `enum DoorState { OPEN, CLOSE }`: `OPEN` has underlying value 0. -/
def OPEN : Nat := 0

/-- `enum DoorState { OPEN, CLOSE }`: `CLOSE` has underlying value 1. -/
def CLOSE : Nat := 1

/-- `digitalRead` result `LOW` (the button is wired `INPUT_PULLUP`, so
`LOW` means pressed). -/
def LOW : Nat := 0

/-- The state-update part of one `Task_DoorController` poll
(lines 287-303): given the current state, the sampled button level and the
`Remote_Door` flag, the next state and the flag value after the transition
branch (the `OPEN -> CLOSE` branch writes `Remote_Door = false` at
line 298). -/
def doorTransition (currentState buttonState : Nat) (Remote_Door : Bool) :
    Nat × Bool :=
  if currentState = CLOSE then
    if buttonState = LOW ∨ Remote_Door = true then (OPEN, Remote_Door)
    else (currentState, Remote_Door)
  else if currentState = OPEN then
    if buttonState = LOW then (CLOSE, false)
    else (currentState, Remote_Door)
  else
    (CLOSE, Remote_Door)

/-- `xQueueSend(DoorQueue, &v, portMAX_DELAY)` on the capacity-one
Actuation Queue (`xQueueCreate(1, ...)`): if the slot is free the value is
deposited; if the slot is still occupied the FreeRTOS call blocks the
caller indefinitely (`portMAX_DELAY`), modelled as `none`. -/
def xQueueSend1 (q : Option Nat) (v : Nat) : Option (Option Nat) :=
  match q with
  | none => some (some v)
  | some _ => none

/-- Result of one completed `Task_DoorController` poll: the retained
`currentState`, the `Remote_Door` flag, and the Actuation Queue contents. -/
structure DoorCtrlResult where
  currentState : Nat
  Remote_Door : Bool
  doorQueue : Option Nat
  deriving Repr, DecidableEq

/-- One full `Task_DoorController` loop body (lines 284-309): sample the
button, run the transition logic, send the updated state to `DoorQueue`
with `portMAX_DELAY`, then clear `Remote_Door`.  `none` means the body did
not complete because the blocking send is still waiting for the Actuator
Task to drain the full slot. -/
def Task_DoorController_body (currentState buttonState : Nat)
    (Remote_Door : Bool) (doorQueue : Option Nat) : Option DoorCtrlResult :=
  let (s1, _r1) := doorTransition currentState buttonState Remote_Door
  match xQueueSend1 doorQueue s1 with
  | none => none
  | some q1 => some { currentState := s1, Remote_Door := false, doorQueue := q1 }

/-- One `Task_DoorController` poll with the flag's intra-poll timing made
explicit.  `Remote_Door` is a plain global `bool`, so the Identification
Task can store `true` into it at any instant; the poll reads it only once,
in the CLOSE branch at line 289, and later stores `false` unconditionally
at line 307 (after the potentially blocking send at line 306).
`rdAtRead` is the flag value the line-289 read sees; `setBetween` is
whether `checkID` stores `true` between that read and the line-307 clear
(for instance while the poll sits in the blocking send, or between
time slices).  The flag value standing at line 307 — `rdAtClear` — is
overwritten with `false` no matter what it is; the match below discards
it, exactly as the unconditional store does. -/
def doorPollWithRace (currentState buttonState : Nat) (rdAtRead : Bool)
    (setBetween : Bool) (q : Option Nat) : Option (Nat × Bool × Option Nat) :=
  let (s1, r1) := doorTransition currentState buttonState rdAtRead
  let rdAtClear := r1 || setBetween
  match xQueueSend1 q s1, rdAtClear with
  | none, _ => none
  | some q1, _ => some (s1, false, q1)

/-! ### Registry lemmas -/

theorem findEmployee_eq_none_iff (head : List Employee) (u : String) :
    findEmployee head u = none ↔ u ∉ head.map Employee.uid := by
  induction head with
  | nil => simp [findEmployee]
  | cons e rest ih =>
      by_cases h : e.uid = u
      · simp [findEmployee, h]
      · rw [List.map_cons]
        simp only [findEmployee, h, if_false, List.mem_cons, not_or]
        rw [ih]
        constructor
        · exact fun hn => ⟨fun he => h he.symm, hn⟩
        · exact fun hn => hn.2

theorem findEmployee_some_uid (head : List Employee) (u : String) (e : Employee)
    (h : findEmployee head u = some e) : e.uid = u := by
  induction head with
  | nil => simp [findEmployee] at h
  | cons x rest ih =>
      by_cases hx : x.uid = u
      · simp [findEmployee, hx] at h
        exact h ▸ hx
      · simp [findEmployee, hx] at h
        exact ih h

theorem updateFirst_map_uid (head : List Employee) (u : String)
    (f : Employee → Employee) (hf : ∀ x, x.uid = u → (f x).uid = u) :
    (updateFirst u f head).map Employee.uid = head.map Employee.uid := by
  induction head with
  | nil => rfl
  | cons x rest ih =>
      by_cases hx : x.uid = u
      · simp [updateFirst, hx, hf x hx]
      · simp [updateFirst, hx, ih]

theorem removeEmployee_sublist (head : List Employee) (u : String) :
    List.Sublist (removeEmployee head u) head := by
  induction head with
  | nil => exact List.Sublist.refl _
  | cons x rest ih =>
      by_cases hx : x.uid = u
      · simp only [removeEmployee, hx, if_true]
        exact List.sublist_cons_self x rest
      · simpa [removeEmployee, hx] using ih.cons₂ x

theorem removeEmployee_eq_of_find_none (head : List Employee) (u : String)
    (h : findEmployee head u = none) : removeEmployee head u = head := by
  induction head with
  | nil => rfl
  | cons x rest ih =>
      by_cases hx : x.uid = u
      · simp [findEmployee, hx] at h
      · simp [findEmployee, hx] at h
        simp [removeEmployee, hx, ih h]

theorem findEmployee_removeEmployee (head : List Employee) (u : String)
    (hnd : (head.map Employee.uid).Nodup) :
    findEmployee (removeEmployee head u) u = none := by
  induction head with
  | nil => rfl
  | cons x rest ih =>
      rw [List.map_cons, List.nodup_cons] at hnd
      by_cases hx : x.uid = u
      · rw [removeEmployee]
        simp only [hx, if_true]
        exact (findEmployee_eq_none_iff rest u).mpr (hx ▸ hnd.1)
      · rw [removeEmployee]
        simp only [hx, if_false]
        rw [findEmployee]
        simp only [hx, if_false]
        exact ih hnd.2

theorem findEmployee_updateFirst (head : List Employee) (u : String)
    (f : Employee → Employee) (e : Employee) (h : findEmployee head u = some e)
    (hf : (f e).uid = u) :
    findEmployee (updateFirst u f head) u = some (f e) := by
  induction head with
  | nil => simp [findEmployee] at h
  | cons x rest ih =>
      by_cases hx : x.uid = u
      · simp [findEmployee, hx] at h
        subst h
        simp [updateFirst, findEmployee, hx, hf]
      · simp [findEmployee, hx] at h
        simp [updateFirst, findEmployee, hx, ih h]

/-! ### Claim theorems: registry operations -/

/-- C6: for all UIDs `u` and times `t`, after `add(u, t)` succeeds on any
registry, the new record `{u, entryTime = t, exitTime = empty,
isEntering = true}` is linked as the new head of the chain, and `find(u)`
returns it. -/
theorem add_then_find (head : List Employee) (u t : String) :
    addEmployee head u t true =
      { uid := u, entryTime := t, exitTime := "", isEntering := true } :: head ∧
    findEmployee (addEmployee head u t true) u =
      some { uid := u, entryTime := t, exitTime := "", isEntering := true } := by
  constructor
  · rfl
  · simp [addEmployee, findEmployee]

/-- C7 counterexample: on a registry holding two records with the same UID
(a chain the uniqueness invariant forbids but the data type allows),
`removeEmployee` unlinks only the first match, so `find` afterwards still
returns the second record — "for all registries" is too strong. -/
theorem remove_then_find_cex :
    ¬ ∀ (head : List Employee) (u : String),
        findEmployee (removeEmployee head u) u = none := by
  intro h
  have := h [{ uid := "A", entryTime := "1", exitTime := "", isEntering := true },
             { uid := "A", entryTime := "2", exitTime := "", isEntering := false }] "A"
  simp [removeEmployee, findEmployee] at this

/-- C7 (amended): on every registry whose records have pairwise distinct
UIDs, `remove(u)` followed by `find(u)` returns nothing, wherever `u`'s
record sat in the chain; and on any registry at all, `remove(u)` for an
absent `u` is a no-op. -/
theorem remove_then_find (head : List Employee) (u : String) :
    ((head.map Employee.uid).Nodup →
      findEmployee (removeEmployee head u) u = none) ∧
    (findEmployee head u = none → removeEmployee head u = head) :=
  ⟨findEmployee_removeEmployee head u, removeEmployee_eq_of_find_none head u⟩

/-- C7 witness: a three-record registry with distinct UIDs, removing the
middle one. -/
theorem remove_then_find_witness :
    findEmployee
      (removeEmployee
        [{ uid := "A", entryTime := "1", exitTime := "", isEntering := true },
         { uid := "B", entryTime := "2", exitTime := "", isEntering := false },
         { uid := "C", entryTime := "3", exitTime := "", isEntering := true }] "B") "B"
      = none ∧
    removeEmployee
        [{ uid := "A", entryTime := "1", exitTime := "", isEntering := true }] "B"
      = [{ uid := "A", entryTime := "1", exitTime := "", isEntering := true }] :=
  ⟨(remove_then_find _ "B").1 (by decide),
   (remove_then_find _ "B").2 (by decide)⟩

/-- C1: when an unknown UID's enroll prompt is answered affirmatively but
`malloc` inside `addEmployee` fails, the registry is left unchanged, yet
`Remote_Door` is set to `true` — and indeed the flag ends up `true` on the
affirmative branch whether or not the record was created. -/
theorem enroll_alloc_failure_still_sets_flag (head : List Employee) (rd : Bool)
    (recvData : AccessData) (h : findEmployee head recvData.uid = none) :
    (checkIDStep head rd recvData true false).1 = head ∧
    ∀ allocOk, (checkIDStep head rd recvData true allocOk).2 = true := by
  constructor
  · simp [checkIDStep, h, addEmployee]
  · intro allocOk
    simp [checkIDStep, h]

/-- C1 witness: a fresh UID on the empty registry with a failed
allocation. -/
theorem enroll_alloc_failure_still_sets_flag_witness :
    (checkIDStep [] false { uid := "AA:BB:CC", time := "09:00:00" } true false).1 = [] ∧
    (checkIDStep [] false { uid := "AA:BB:CC", time := "09:00:00" } true false).2 = true :=
  ⟨(enroll_alloc_failure_still_sets_flag [] false _ (by decide)).1,
   (enroll_alloc_failure_still_sets_flag [] false _ (by decide)).2 false⟩

/-- C10: when the scanned UID resolves to a record whose `isEntering` is
currently `true` (so the toggle makes this an exiting resolution), the
`checkID` body never writes `Remote_Door`: the flag keeps its prior value
for every operator answer to the remove prompt. -/
theorem exiting_resolution_leaves_flag (head : List Employee) (rd : Bool)
    (recvData : AccessData) (answerYes allocOk : Bool) (e : Employee)
    (h : findEmployee head recvData.uid = some e) (he : e.isEntering = true) :
    (checkIDStep head rd recvData answerYes allocOk).2 = rd := by
  cases answerYes <;> simp [checkIDStep, h, he]

/-- C10 witness: an employee currently inside scans out; the flag stays
`false` both when the operator answers yes and when they answer no. -/
theorem exiting_resolution_leaves_flag_witness :
    (checkIDStep [{ uid := "A", entryTime := "08:00:00", exitTime := "", isEntering := true }]
      false { uid := "A", time := "17:00:00" } true true).2 = false ∧
    (checkIDStep [{ uid := "A", entryTime := "08:00:00", exitTime := "", isEntering := true }]
      false { uid := "A", time := "17:00:00" } false true).2 = false :=
  ⟨exiting_resolution_leaves_flag _ false _ true true
      { uid := "A", entryTime := "08:00:00", exitTime := "", isEntering := true }
      (by decide) rfl,
   exiting_resolution_leaves_flag _ false _ false true
      { uid := "A", entryTime := "08:00:00", exitTime := "", isEntering := true }
      (by decide) rfl⟩

/-- C9: `calculateTotalTime` is the exact integer difference of the two
`sscanf`-decomposed timestamps (`H*3600 + M*60 + S` each): the spec's two
sample pairs give 30 and 5415 seconds, and an exit time numerically before
the entry time gives a negative result with no clamping. -/
theorem calculateTotalTime_spec :
    (∀ entry exit : String,
      calculateTotalTime entry exit =
        ((scanHMS exit).1 * 3600 + (scanHMS exit).2.1 * 60 + (scanHMS exit).2.2) -
        ((scanHMS entry).1 * 3600 + (scanHMS entry).2.1 * 60 + (scanHMS entry).2.2)) ∧
    calculateTotalTime "09:00:00" "09:00:30" = 30 ∧
    calculateTotalTime "10:00:00" "11:30:15" = 5415 ∧
    calculateTotalTime "23:00:00" "01:00:00" = 3600 - 82800 ∧
    calculateTotalTime "23:00:00" "01:00:00" < 0 :=
  ⟨fun entry exit => rfl, by decide, by decide, by decide, by decide⟩

/-! ### Claim theorems: Door State Machine -/

/-- Whenever the Actuation Queue slot is free, the poll body completes,
deposits the (possibly updated) current state in the queue, and ends with
`Remote_Door = false`; and a flag that is already set when the line-289
read samples it in CLOSE is observed on that very poll: the state
transitions to OPEN.  (This covers only sets visible at the read; see
`remote_admit_set_between_read_and_clear_is_lost` for sets landing later
in the same poll.) -/
theorem door_poll_pushes_state_and_clears_flag (cs bs : Nat) (rd : Bool) :
    Task_DoorController_body cs bs rd none =
      some { currentState := (doorTransition cs bs rd).1, Remote_Door := false,
             doorQueue := some (doorTransition cs bs rd).1 } ∧
    (cs = CLOSE → rd = true → (doorTransition cs bs rd).1 = OPEN) := by
  constructor
  · rcases hp : doorTransition cs bs rd with ⟨s1, r1⟩
    simp [Task_DoorController_body, hp, xQueueSend1]
  · intro hcs hrd
    subst hcs
    subst hrd
    simp [doorTransition]

/-- Instance of the per-poll push/clear fact: the machine polls in CLOSE
with the button released and the flag set at the read. -/
theorem door_poll_pushes_state_and_clears_flag_witness :
    Task_DoorController_body CLOSE 1 true none =
      some { currentState := (doorTransition CLOSE 1 true).1, Remote_Door := false,
             doorQueue := some (doorTransition CLOSE 1 true).1 } ∧
    (doorTransition CLOSE 1 true).1 = OPEN :=
  ⟨(door_poll_pushes_state_and_clears_flag CLOSE 1 true).1,
   (door_poll_pushes_state_and_clears_flag CLOSE 1 true).2 rfl rfl⟩

/-- C2 failing execution: the machine is in CLOSE with the button up and
reads `Remote_Door == false` at line 289; before control reaches the
unconditional clear at line 307, `checkID` completes an entering
resolution and stores `true` into the flag; line 307 then stores `false`.
The poll ends in CLOSE with the flag cleared, the next poll (flag now
`false`) also stays in CLOSE — the set is wiped without ever causing a
CLOSE-to-OPEN transition, although the very same set, had it been visible
at the line-289 read, would have opened the door.  The claim's
set-between-two-clears guarantee is therefore violated by the code. -/
theorem remote_admit_set_between_read_and_clear_is_lost :
    (checkIDStep
        [{ uid := "A", entryTime := "07:00:00", exitTime := "17:00:00",
           isEntering := false }]
        false ⟨"A", "08:00:00"⟩ false true).2 = true ∧
    doorPollWithRace CLOSE 1 false true none = some (CLOSE, false, some CLOSE) ∧
    doorPollWithRace CLOSE 1 false false none = some (CLOSE, false, some CLOSE) ∧
    (doorTransition CLOSE 1 true).1 = OPEN := by
  decide

/-- C3 counterexample: the push to the Actuation Queue is
`xQueueSend(..., portMAX_DELAY)`, a blocking call — when the single queue
slot is still occupied the poll body does not complete without waiting on
the Actuator Task, refuting "every operation completes without waiting on
any other task". -/
theorem door_poll_blocks_cex :
    ¬ ∀ (cs bs : Nat) (rd : Bool) (q : Option Nat),
        (Task_DoorController_body cs bs rd q).isSome = true := by
  intro h
  exact absurd (h CLOSE 1 false (some CLOSE)) (by decide)

/-- C3 (amended): every operation of the poll body other than the
Actuation-Queue push is non-waiting, and the body as a whole completes
without waiting exactly when the single queue slot is free. -/
theorem door_poll_completes_iff_slot_free (cs bs : Nat) (rd : Bool)
    (q : Option Nat) :
    (Task_DoorController_body cs bs rd q).isSome = true ↔ q = none := by
  rcases hp : doorTransition cs bs rd with ⟨s1, r1⟩
  cases q <;> simp [Task_DoorController_body, hp, xQueueSend1]

/-- C4: in CLOSE the next state is OPEN exactly when the button reads LOW
or the flag is set; in OPEN the next state is CLOSE exactly when the button
reads LOW (the flag alone never changes an OPEN state); any value that is
neither OPEN nor CLOSE resets to CLOSE. -/
theorem doorTransition_spec (bs : Nat) (rd : Bool) :
    ((doorTransition CLOSE bs rd).1 = OPEN ↔ (bs = LOW ∨ rd = true)) ∧
    ((doorTransition OPEN bs rd).1 = CLOSE ↔ bs = LOW) ∧
    (∀ s : Nat, s ≠ OPEN → s ≠ CLOSE → (doorTransition s bs rd).1 = CLOSE) := by
  refine ⟨?_, ?_, ?_⟩
  · by_cases hb : bs = LOW ∨ rd = true <;> simp [doorTransition, OPEN, CLOSE, LOW] at hb ⊢ <;>
      simp [hb]
  · by_cases hb : bs = LOW <;> simp [doorTransition, OPEN, CLOSE, LOW] at hb ⊢ <;> simp [hb]
  · intro s h0 h1
    simp [doorTransition, h0, h1]

/-- C4 witness: button released, flag set in CLOSE opens; button pressed in
OPEN closes; the stray state value 5 resets to CLOSE. -/
theorem doorTransition_spec_witness :
    (doorTransition CLOSE 1 true).1 = OPEN ∧
    (doorTransition OPEN 0 false).1 = CLOSE ∧
    (doorTransition 5 0 false).1 = CLOSE :=
  ⟨(doorTransition_spec 1 true).1.mpr (Or.inr rfl),
   (doorTransition_spec 0 false).2.1.mpr rfl,
   (doorTransition_spec 0 false).2.2 5 (by decide) (by decide)⟩

/-! ### Claim theorems: uniqueness invariant -/

theorem updateFirst_nodup (head : List Employee) (u : String)
    (f : Employee → Employee) (hf : ∀ x, x.uid = u → (f x).uid = u)
    (hnd : (head.map Employee.uid).Nodup) :
    ((updateFirst u f head).map Employee.uid).Nodup := by
  rw [updateFirst_map_uid head u f hf]
  exact hnd

theorem removeEmployee_nodup (head : List Employee) (u : String)
    (hnd : (head.map Employee.uid).Nodup) :
    ((removeEmployee head u).map Employee.uid).Nodup :=
  hnd.sublist ((removeEmployee_sublist head u).map Employee.uid)

theorem checkIDStep_nodup (head : List Employee) (rd : Bool)
    (recvData : AccessData) (answerYes allocOk : Bool)
    (hnd : (head.map Employee.uid).Nodup) :
    (((checkIDStep head rd recvData answerYes allocOk).1).map Employee.uid).Nodup := by
  cases hfind : findEmployee head recvData.uid with
  | none =>
      cases answerYes with
      | false => simpa [checkIDStep, hfind]
      | true =>
          cases allocOk with
          | false => simpa [checkIDStep, hfind, addEmployee]
          | true =>
              simp only [checkIDStep, hfind, addEmployee, if_true, List.map_cons]
              exact List.nodup_cons.mpr
                ⟨(findEmployee_eq_none_iff head recvData.uid).mp hfind, hnd⟩
  | some temp =>
      have huid : temp.uid = recvData.uid := findEmployee_some_uid _ _ _ hfind
      by_cases he : temp.isEntering
      · -- toggles to exiting
        cases answerYes with
        | false =>
            simp only [checkIDStep, hfind, he, Bool.not_true, if_false]
            exact updateFirst_nodup _ _ _ (fun x _ => huid) hnd
        | true =>
            simp only [checkIDStep, hfind, he, Bool.not_true, if_false, if_true]
            exact removeEmployee_nodup _ _
              (updateFirst_nodup _ _ _ (fun x _ => huid) hnd)
      · -- toggles to entering
        simp only [checkIDStep, hfind, Bool.not_eq_true] at he ⊢
        simp only [he, Bool.not_false, if_true]
        exact updateFirst_nodup _ _ _ (fun x _ => huid) hnd

/-- C5: starting from the empty registry, after any sequence of credential
events, operator answers and allocation outcomes processed by the `checkID`
body, the chain holds at most one record per UID (the mapped UID list has
no duplicates). -/
theorem identification_preserves_uid_uniqueness
    (evs : List (AccessData × Bool × Bool)) :
    (((runEvents evs).1).map Employee.uid).Nodup := by
  have aux : ∀ (l : List (AccessData × Bool × Bool)) (st : List Employee × Bool),
      ((st.1).map Employee.uid).Nodup →
      (((l.foldl (fun st x => checkIDStep st.1 st.2 x.1 x.2.1 x.2.2) st).1).map
        Employee.uid).Nodup := by
    intro l
    induction l with
    | nil => exact fun st h => h
    | cons x xs ih => exact fun st h => ih _ (checkIDStep_nodup _ _ _ _ _ h)
  exact aux evs ([], false) (by simp)

/-! ### Claim theorems: entry/exit toggling -/

theorem checkIDStep_exiting_no (head : List Employee) (rd : Bool)
    (recvData : AccessData) (allocOk : Bool) (e : Employee)
    (h : findEmployee head recvData.uid = some e) (he : e.isEntering = true) :
    (checkIDStep head rd recvData false allocOk).1 =
      updateFirst recvData.uid
        (fun _ => { e with isEntering := false, exitTime := recvData.time }) head := by
  simp [checkIDStep, h, he]

theorem checkIDStep_entering (head : List Employee) (rd : Bool)
    (recvData : AccessData) (answerYes allocOk : Bool) (e : Employee)
    (h : findEmployee head recvData.uid = some e) (he : e.isEntering = false) :
    checkIDStep head rd recvData answerYes allocOk =
      (updateFirst recvData.uid
        (fun _ => { e with isEntering := true, entryTime := recvData.time }) head,
       true) := by
  simp [checkIDStep, h, he]

/-- C8: two consecutive resolutions of a UID present in the registry (with
the remove prompt declined, so the record stays) flip `isEntering` twice,
returning it to its original value; and when the record was entering, the
first (exiting) resolution sets `exitTime` to that event's timestamp, which
the following (entering) resolution leaves unchanged. -/
theorem toggle_twice (head : List Employee) (u t1 t2 : String)
    (rd1 rd2 a1 a2 : Bool) (e : Employee) (h : findEmployee head u = some e) :
    (findEmployee
        (checkIDStep (checkIDStep head rd1 ⟨u, t1⟩ false a1).1 rd2 ⟨u, t2⟩ false a2).1
        u).map Employee.isEntering = some e.isEntering ∧
    (e.isEntering = true →
      (findEmployee (checkIDStep head rd1 ⟨u, t1⟩ false a1).1 u).map Employee.exitTime
          = some t1 ∧
      (findEmployee
          (checkIDStep (checkIDStep head rd1 ⟨u, t1⟩ false a1).1 rd2 ⟨u, t2⟩ false a2).1
          u).map Employee.exitTime = some t1) := by
  have huid : e.uid = u := findEmployee_some_uid _ _ _ h
  by_cases he : e.isEntering
  · -- first resolution is exiting, second is re-entering
    have h1 : (checkIDStep head rd1 ⟨u, t1⟩ false a1).1 =
        updateFirst u (fun _ => { e with isEntering := false, exitTime := t1 }) head :=
      checkIDStep_exiting_no head rd1 ⟨u, t1⟩ a1 e h he
    have hf1 : findEmployee (checkIDStep head rd1 ⟨u, t1⟩ false a1).1 u =
        some { e with isEntering := false, exitTime := t1 } := by
      rw [h1]
      exact findEmployee_updateFirst head u _ e h (by simp [huid])
    have h2 : (checkIDStep (checkIDStep head rd1 ⟨u, t1⟩ false a1).1 rd2 ⟨u, t2⟩ false a2).1 =
        updateFirst u
          (fun _ => { e with entryTime := t2, exitTime := t1, isEntering := true })
          (checkIDStep head rd1 ⟨u, t1⟩ false a1).1 :=
      congrArg Prod.fst
        (checkIDStep_entering (checkIDStep head rd1 ⟨u, t1⟩ false a1).1 rd2 ⟨u, t2⟩
          false a2 { e with isEntering := false, exitTime := t1 } hf1 rfl)
    have hf2 : findEmployee
        (checkIDStep (checkIDStep head rd1 ⟨u, t1⟩ false a1).1 rd2 ⟨u, t2⟩ false a2).1 u =
        some { e with entryTime := t2, exitTime := t1, isEntering := true } := by
      rw [h2]
      exact findEmployee_updateFirst _ u _ _ hf1 (by simp [huid])
    refine ⟨?_, fun _ => ⟨?_, ?_⟩⟩
    · simp [hf2, he]
    · simp [hf1]
    · simp [hf2]
  · -- first resolution is entering, second is exiting
    have he' : e.isEntering = false := by simpa using he
    have h1 : (checkIDStep head rd1 ⟨u, t1⟩ false a1).1 =
        updateFirst u (fun _ => { e with isEntering := true, entryTime := t1 }) head :=
      congrArg Prod.fst (checkIDStep_entering head rd1 ⟨u, t1⟩ false a1 e h he')
    have hf1 : findEmployee (checkIDStep head rd1 ⟨u, t1⟩ false a1).1 u =
        some { e with isEntering := true, entryTime := t1 } := by
      rw [h1]
      exact findEmployee_updateFirst head u _ e h (by simp [huid])
    have h2 : (checkIDStep (checkIDStep head rd1 ⟨u, t1⟩ false a1).1 rd2 ⟨u, t2⟩ false a2).1 =
        updateFirst u
          (fun _ => { e with entryTime := t1, exitTime := t2, isEntering := false })
          (checkIDStep head rd1 ⟨u, t1⟩ false a1).1 :=
      checkIDStep_exiting_no (checkIDStep head rd1 ⟨u, t1⟩ false a1).1 rd2 ⟨u, t2⟩ a2
        { e with isEntering := true, entryTime := t1 } hf1 rfl
    have hf2 : findEmployee
        (checkIDStep (checkIDStep head rd1 ⟨u, t1⟩ false a1).1 rd2 ⟨u, t2⟩ false a2).1 u =
        some { e with entryTime := t1, exitTime := t2, isEntering := false } := by
      rw [h2]
      exact findEmployee_updateFirst _ u _ _ hf1 (by simp [huid])
    refine ⟨?_, fun hc => absurd hc (by simp [he'])⟩
    simp [hf2, he']

/-- C8 witness: employee `"A"` is inside (`isEntering = true`), scans out at
17:00:00 (remove declined), scans back in at 08:30:00: `isEntering` is back
to `true` and `exitTime` holds 17:00:00 after both resolutions. -/
theorem toggle_twice_witness :
    (findEmployee
        (checkIDStep
          (checkIDStep
            [{ uid := "A", entryTime := "08:00:00", exitTime := "", isEntering := true }]
            false ⟨"A", "17:00:00"⟩ false true).1
          false ⟨"A", "08:30:00"⟩ false true).1
        "A").map Employee.isEntering = some true ∧
    (findEmployee
        (checkIDStep
          [{ uid := "A", entryTime := "08:00:00", exitTime := "", isEntering := true }]
          false ⟨"A", "17:00:00"⟩ false true).1
        "A").map Employee.exitTime = some "17:00:00" ∧
    (findEmployee
        (checkIDStep
          (checkIDStep
            [{ uid := "A", entryTime := "08:00:00", exitTime := "", isEntering := true }]
            false ⟨"A", "17:00:00"⟩ false true).1
          false ⟨"A", "08:30:00"⟩ false true).1
        "A").map Employee.exitTime = some "17:00:00" := by
  obtain ⟨ha, hb⟩ := toggle_twice
    [{ uid := "A", entryTime := "08:00:00", exitTime := "", isEntering := true }]
    "A" "17:00:00" "08:30:00" false false true true
    { uid := "A", entryTime := "08:00:00", exitTime := "", isEntering := true }
    (by decide)
  exact ⟨ha, (hb rfl).1, (hb rfl).2⟩

end Receiver
